import Mathlib

/-!
Verification of the FortifAI Deep Security Scanner & Grading Engine
against its natural-language specification.

The repository ships the frontend scanner page (TypeScript, `ScannerPage`)
with the normative `ScanResult` and `UrlInfo` interfaces, the API client,
and documentation of the scoring methodology.  The Python scanner module
itself (`backend/api/scanner/`) is referenced by the README and docs but
its code is not part of the shipped sources, so engine-internal behaviour
(URL validation, orchestration, DNS resolution, scoring) is modelled from
the specification; such definitions carry a doc comment starting
`Modelled from the spec:`.  Everything about the public interfaces and the
scanner page state machine is embedded directly from the TypeScript source.
-/

namespace FortifAI

/-! ## Data model, embedded from the `ScanResult` interface (ScannerPage) -/

/-- `ssl_analysis` sub-object of the TypeScript `ScanResult` interface. -/
structure TlsReport where
  enabled : Bool
  valid : Bool
  issuer : Option String
  subject : Option String
  expires : Option String
  days_until_expiry : Option Int
  protocol : Option String
  deriving Repr, DecidableEq

/-- Per-header entry of `security_headers.headers` in the TypeScript interface. -/
structure HeaderInfo where
  present : Bool
  value : Option String
  recommendation : String
  deriving Repr, DecidableEq

/-- `security_headers` sub-object of the TypeScript `ScanResult` interface. -/
structure HeaderReport where
  present_count : Nat
  total_headers : Nat
  score : Nat
  headers : List (String × HeaderInfo)
  deriving Repr, DecidableEq

/-- `dns_records` sub-object of the TypeScript `ScanResult` interface: four
non-optional arrays of strings. -/
structure DnsRecordSet where
  a_records : List String
  aaaa_records : List String
  mx_records : List String
  ns_records : List String
  deriving Repr, DecidableEq

/-- `technology` sub-object of the TypeScript `ScanResult` interface. -/
structure TechnologyProfile where
  server : Option String
  framework : Option String
  cms : Option String
  cdn : Option String
  javascript_libraries : List String
  analytics : List String
  detected : List String
  deriving Repr, DecidableEq

/-- One element of `open_ports.open_ports` in the TypeScript interface. -/
structure OpenPortEntry where
  port : Nat
  service : String
  status : String
  deriving Repr, DecidableEq

/-- `open_ports` sub-object of the TypeScript `ScanResult` interface. -/
structure OpenPorts where
  open_ports : List OpenPortEntry
  scanned : Nat
  deriving Repr, DecidableEq

/-- One element of `findings` in the TypeScript interface. -/
structure Finding where
  type : String
  message : String
  deriving Repr, DecidableEq

/-- The top-level `ScanResult` interface from `ScannerPage`: everything but
`success` is optional in the TypeScript declaration. -/
structure ScanResult where
  success : Bool
  target : Option String
  hostname : Option String
  scan_time : Option String
  security_score : Option Int
  security_grade : Option String
  ssl_analysis : Option TlsReport
  security_headers : Option HeaderReport
  dns_records : Option DnsRecordSet
  technology : Option TechnologyProfile
  open_ports : Option OpenPorts
  findings : Option (List Finding)
  error : Option String
  deriving Repr, DecidableEq

/-- `whois` sub-object of the TypeScript `UrlInfo` interface. -/
structure WhoisInfo where
  registrar : String
  organization : String
  creation_date : String
  expiry_date : String
  domain_age : String
  trust_score : Nat
  risk_level : String
  deriving Repr, DecidableEq

/-- The extract-mode `UrlInfo` interface from `ScannerPage`.  Note that the
TypeScript source declares `secure: string` (rendered green when it equals
the literal text Yes), not a boolean. -/
structure UrlInfo where
  protocol : String
  domain_name : String
  subdomain : String
  tld : String
  port : Nat
  path : String
  ip_address : String
  secure : String
  whois : Option WhoisInfo
  deriving Repr, DecidableEq

/-! ## Field-name tables, transcribed from the TypeScript interfaces -/

/-- Top-level field names of the `ScanResult` interface, in declaration order. -/
def scanResultFields : List String :=
  ["success", "target", "hostname", "scan_time", "security_score",
   "security_grade", "ssl_analysis", "security_headers", "dns_records",
   "technology", "open_ports", "findings", "error"]

/-- Field names of the `ssl_analysis` sub-object, in declaration order. -/
def sslAnalysisFields : List String :=
  ["enabled", "valid", "issuer", "subject", "expires", "days_until_expiry",
   "protocol"]

/-- Field names of the `security_headers` sub-object, in declaration order. -/
def securityHeadersFields : List String :=
  ["present_count", "total_headers", "score", "headers"]

/-- Field names of the `dns_records` sub-object, in declaration order. -/
def dnsRecordsFields : List String :=
  ["a_records", "aaaa_records", "mx_records", "ns_records"]

/-- Field names of the `open_ports` sub-object, in declaration order. -/
def openPortsFields : List String :=
  ["open_ports", "scanned"]

/-- Top-level field names of the `UrlInfo` interface, in declaration order. -/
def urlInfoFields : List String :=
  ["protocol", "domain_name", "subdomain", "tld", "port", "path",
   "ip_address", "secure", "whois"]

/-- Field names of the `whois` sub-object, in declaration order. -/
def whoisFields : List String :=
  ["registrar", "organization", "creation_date", "expiry_date",
   "domain_age", "trust_score", "risk_level"]

/-- Field-name/TypeScript-type pairs of the `UrlInfo` interface, transcribed
from its declaration (the `secure` field is declared `string`). -/
def urlInfoFieldTypes : List (String × String) :=
  [("protocol", "string"), ("domain_name", "string"), ("subdomain", "string"),
   ("tld", "string"), ("port", "number"), ("path", "string"),
   ("ip_address", "string"), ("secure", "string"), ("whois", "object")]

/-! ## Spec-side field lists (the normative result schema, spec §6) -/

/-- Field names the spec declares normative for the scan result. -/
def specScanResultFields : List String :=
  ["success", "target", "hostname", "scan_time", "security_score",
   "security_grade", "ssl_analysis", "security_headers", "dns_records",
   "technology", "open_ports", "findings", "error"]

/-- Field names the spec declares for `ssl_analysis`. -/
def specSslAnalysisFields : List String :=
  ["enabled", "valid", "issuer", "subject", "expires", "days_until_expiry",
   "protocol"]

/-- Field names the spec declares for `security_headers`. -/
def specSecurityHeadersFields : List String :=
  ["present_count", "total_headers", "score", "headers"]

/-- Field names the spec declares for `dns_records`. -/
def specDnsRecordsFields : List String :=
  ["a_records", "aaaa_records", "mx_records", "ns_records"]

/-- Field names the spec declares for `open_ports`. -/
def specOpenPortsFields : List String :=
  ["open_ports", "scanned"]

/-- Field names the spec declares for the extract-mode object. -/
def specUrlInfoFields : List String :=
  ["protocol", "domain_name", "subdomain", "tld", "port", "path",
   "ip_address", "secure", "whois"]

/-- Field names the spec declares for `whois`. -/
def specWhoisFields : List String :=
  ["registrar", "organization", "creation_date", "expiry_date",
   "domain_age", "trust_score", "risk_level"]

/-! ## Grade table -/

/-- The `gradeColors` lookup table from `ScannerPage`, keyed by grade letter. -/
def gradeColors : List (String × String) :=
  [("A+", "text-green-600 bg-green-100"),
   ("A", "text-green-600 bg-green-100"),
   ("B", "text-blue-600 bg-blue-100"),
   ("C", "text-yellow-600 bg-yellow-100"),
   ("D", "text-orange-600 bg-orange-100"),
   ("F", "text-red-600 bg-red-100")]

/-- Modelled from the spec: the grade mapping of the Scoring Aggregator
(backend scanner module absent from the shipped sources).  Fixed monotonic
table over the numeric security score. -/
def security_grade (score : Int) : String :=
  if 97 ≤ score then "A+"
  else if 93 ≤ score then "A"
  else if 80 ≤ score then "B"
  else if 65 ≤ score then "C"
  else if 50 ≤ score then "D"
  else "F"

set_option maxHeartbeats 1600000 in
/-- C1: the security grade is a pure function of the score given by the fixed
monotonic threshold table (≥97→A+, ≥93→A, ≥80→B, ≥65→C, ≥50→D, else F), its
range is exactly the six letters keying `gradeColors`, and the boundaries
fall as the spec states (97→A+, 96→A). -/
theorem grade_is_fixed_threshold_table (s : Int) :
    (security_grade s = "A+" ↔ 97 ≤ s) ∧
    (security_grade s = "A" ↔ 93 ≤ s ∧ s < 97) ∧
    (security_grade s = "B" ↔ 80 ≤ s ∧ s < 93) ∧
    (security_grade s = "C" ↔ 65 ≤ s ∧ s < 80) ∧
    (security_grade s = "D" ↔ 50 ≤ s ∧ s < 65) ∧
    (security_grade s = "F" ↔ s < 50) ∧
    security_grade s ∈ gradeColors.map Prod.fst ∧
    security_grade 97 = "A+" ∧ security_grade 96 = "A" := by
  have h97 : security_grade 97 = "A+" := by norm_num [security_grade]
  have h96 : security_grade 96 = "A" := by norm_num [security_grade]
  refine ⟨?_, ?_, ?_, ?_, ?_, ?_, ?_, h97, h96⟩ <;>
    · simp only [security_grade, gradeColors, List.map_cons, List.map_nil]
      split_ifs <;> simp_all <;> omega

/-- C3: the field names of the scan result and of the extract-mode result, as
declared by the TypeScript interfaces, are exactly those of the normative
schema in the spec, sub-objects included. -/
theorem result_schema_fields_match :
    scanResultFields = specScanResultFields ∧
    sslAnalysisFields = specSslAnalysisFields ∧
    securityHeadersFields = specSecurityHeadersFields ∧
    dnsRecordsFields = specDnsRecordsFields ∧
    openPortsFields = specOpenPortsFields ∧
    urlInfoFields = specUrlInfoFields ∧
    whoisFields = specWhoisFields := by
  refine ⟨rfl, rfl, rfl, rfl, rfl, rfl, rfl⟩

/-! ## The secure flag of the extract-mode result -/

/-- The rendering predicate of `ScannerPage`: the secure field is shown in
green exactly when it equals the literal text Yes. -/
def secureIsGreen (v : String) : Bool := v == "Yes"

/-- Modelled from the spec: the URL Normalizer derives the secure flag from
the scheme (secure means the scheme is https); the backend scanner module is
absent from the shipped sources.  The frontend declares the field as a
string compared against the literal Yes, so the flag is modelled as the
string Yes/No rather than a boolean. -/
def secureFlag (scheme : String) : String :=
  if scheme = "https" then "Yes" else "No"

/-- C4 counterexample: the TypeScript `UrlInfo` interface declares the
`secure` field with type `string`, not `boolean`, so the claim that the flag
has boolean type at the public interface fails on the code. -/
theorem secure_field_not_boolean :
    urlInfoFieldTypes.lookup "secure" = some "string" ∧
    ("string" : String) ≠ "boolean" := by
  refine ⟨by rfl, by decide⟩

/-- C4 amended: at the public interface the secure flag is a string field;
it equals Yes (and renders as secure) exactly when the URL scheme is https. -/
theorem secure_flag_iff_https (scheme : String) :
    urlInfoFieldTypes.lookup "secure" = some "string" ∧
    (secureFlag scheme = "Yes" ↔ scheme = "https") ∧
    (secureIsGreen (secureFlag scheme) = true ↔ scheme = "https") := by
  refine ⟨by rfl, ?_, ?_⟩ <;>
    · simp only [secureFlag, secureIsGreen]
      split_ifs with h <;> simp_all

/-! ## The scanner page state machine, embedded from `ScannerPage` -/

/-- The three scan modes of the page (`useState` over quick/deep/extract). -/
inductive ScanMode
  | quick
  | deep
  | extract
  deriving Repr, DecidableEq

/-- The API operations the page can dispatch, named after the client calls. -/
inductive ApiOp
  | deepScanUrl
  | quickScanUrl
  | extractUrl
  deriving Repr, DecidableEq

/-- The page state: URL input, selected scan type, and the two result
slots (`scanResult` and `urlInfo`), each nullable. -/
structure PageState where
  url : String
  scanType : ScanMode
  scanResult : Option ScanResult
  urlInfo : Option UrlInfo
  deriving Repr, DecidableEq

/-- The initial page state: empty URL, deep scan selected, both slots null. -/
def initialPageState : PageState :=
  { url := "", scanType := .deep, scanResult := none, urlInfo := none }

/-- The guard of `handleScan` (the JavaScript test on a trimmed URL): the
URL counts as blank exactly when every character is whitespace, i.e. when
trimming leaves the empty string. -/
def isBlank (s : String) : Bool := s.data.all Char.isWhitespace

/-- The switch in `handleScan`: which API operation each mode dispatches. -/
def dispatchOp : ScanMode → ApiOp
  | .deep => .deepScanUrl
  | .quick => .quickScanUrl
  | .extract => .extractUrl

/-- `handleScan` from `ScannerPage`: returns early on a blank (empty after
trim) URL; otherwise clears both result slots and dispatches exactly the
operation selected by the scan type.  Returns the new state and the
dispatched operation, if any. -/
def handleScan (s : PageState) : PageState × Option ApiOp :=
  if isBlank s.url then (s, none)
  else ({ s with scanResult := none, urlInfo := none },
        some (dispatchOp s.scanType))

/-- Modelled from the spec: the set of probes each scan mode runs
(backend scanner module absent from the shipped sources). -/
inductive Probe
  | urlNormalizer
  | dnsResolver
  | tlsProber
  | headerAuditor
  | portScanner
  | techFingerprinter
  | trustAnalyzer
  deriving Repr, DecidableEq

/-- Modelled from the spec: quick mode runs only the TLS Prober and Header
Auditor, deep mode runs all probes, extract mode runs only the URL
Normalizer and Domain Trust Analyzer. -/
def probesFor : ScanMode → List Probe
  | .quick => [.tlsProber, .headerAuditor]
  | .deep => [.urlNormalizer, .dnsResolver, .tlsProber, .headerAuditor,
              .portScanner, .techFingerprinter, .trustAnalyzer]
  | .extract => [.urlNormalizer, .trustAnalyzer]

/-- C5: each mode selects a fixed subset of work — quick runs only the TLS
Prober and Header Auditor, deep runs every probe, extract runs only the URL
Normalizer and Domain Trust Analyzer — and on a non-blank URL `handleScan`
dispatches exactly the one operation selected by the mode (the dispatched
operation is a single optional value, so never more than one). -/
theorem mode_selects_fixed_work (s : PageState) (h : isBlank s.url = false) :
    probesFor .quick = [.tlsProber, .headerAuditor] ∧
    (∀ p : Probe, p ∈ probesFor .deep) ∧
    probesFor .extract = [.urlNormalizer, .trustAnalyzer] ∧
    (handleScan s).2 = some (dispatchOp s.scanType) ∧
    dispatchOp .deep = .deepScanUrl ∧
    dispatchOp .quick = .quickScanUrl ∧
    dispatchOp .extract = .extractUrl := by
  refine ⟨rfl, ?_, rfl, ?_, rfl, rfl, rfl⟩
  · intro p
    cases p <;> simp [probesFor]
  · unfold handleScan
    simp [h]

/-- C5 witness: `mode_selects_fixed_work` at a concrete non-blank state. -/
theorem mode_selects_fixed_work_witness :
    isBlank "https://example.com" = false ∧
    (handleScan { url := "https://example.com", scanType := .deep,
                  scanResult := none, urlInfo := none }).2 =
      some ApiOp.deepScanUrl :=
  ⟨by decide,
   (mode_selects_fixed_work
      { url := "https://example.com", scanType := .deep,
        scanResult := none, urlInfo := none } (by decide)).2.2.2.1⟩

/-- C10: invoking the scan action with a URL that is empty after trimming is
a no-op — the state (both result slots included) is returned unchanged and
no operation of any mode is dispatched. -/
theorem blank_url_scan_is_noop (s : PageState) (h : isBlank s.url = true) :
    handleScan s = (s, none) := by
  unfold handleScan
  simp [h]

/-- C10 witness: `blank_url_scan_is_noop` at a whitespace-only URL over a
state holding a previous result. -/
theorem blank_url_scan_is_noop_witness :
    isBlank "   " = true ∧
    handleScan { url := "   ", scanType := .quick,
                 scanResult := none,
                 urlInfo := some { protocol := "https", domain_name := "example.com",
                                   subdomain := "", tld := "com", port := 443,
                                   path := "/", ip_address := "93.184.216.34",
                                   secure := "Yes", whois := none } } =
      ({ url := "   ", scanType := .quick,
         scanResult := none,
         urlInfo := some { protocol := "https", domain_name := "example.com",
                           subdomain := "", tld := "com", port := 443,
                           path := "/", ip_address := "93.184.216.34",
                           secure := "Yes", whois := none } }, none) :=
  ⟨by decide,
   blank_url_scan_is_noop
     { url := "   ", scanType := .quick,
       scanResult := none,
       urlInfo := some { protocol := "https", domain_name := "example.com",
                         subdomain := "", tld := "com", port := 443,
                         path := "/", ip_address := "93.184.216.34",
                         secure := "Yes", whois := none } } (by decide)⟩

/-! ## Page events and the mutual exclusion of the two result slots -/

/-- The state-changing interactions of `ScannerPage`: the input handlers,
the body of `handleScan` past its guard, and the three mutation `onSuccess`
callbacks.  The extract callback carries the success flag of the response
because it only stores the payload when that flag is set. -/
inductive PageEvent
  | setUrl (u : String)
  | setScanType (m : ScanMode)
  | startScan
  | deepScanSuccess (d : ScanResult)
  | quickScanSuccess (d : ScanResult)
  | extractSuccess (ok : Bool) (info : UrlInfo)

/-- How each interaction updates the page state, transcribed from the
`setUrl`/`setScanType` handlers, the two `setXxx(null)` calls in
`handleScan`, and the three `onSuccess` callbacks. -/
def applyEvent (s : PageState) : PageEvent → PageState
  | .setUrl u => { s with url := u }
  | .setScanType m => { s with scanType := m }
  | .startScan => { s with scanResult := none, urlInfo := none }
  | .deepScanSuccess d => { s with scanResult := some d, urlInfo := none }
  | .quickScanSuccess d => { s with scanResult := some d, urlInfo := none }
  | .extractSuccess ok info =>
      if ok then { s with urlInfo := some info, scanResult := none } else s

/-- At most one of the two result slots is populated. -/
def resultSlotsExclusive (s : PageState) : Prop :=
  s.scanResult = none ∨ s.urlInfo = none

/-- Each page event preserves the slot exclusion invariant. -/
theorem applyEvent_preserves_exclusive (s : PageState) (e : PageEvent)
    (h : resultSlotsExclusive s) :
    resultSlotsExclusive (applyEvent s e) := by
  cases e with
  | setUrl u => exact h
  | setScanType m => exact h
  | startScan => exact Or.inl rfl
  | deepScanSuccess d => exact Or.inr rfl
  | quickScanSuccess d => exact Or.inr rfl
  | extractSuccess ok info =>
      cases ok with
      | false => exact h
      | true => exact Or.inl rfl

/-- Slot exclusion holds along every trace from a state satisfying it. -/
theorem foldl_applyEvent_exclusive (es : List PageEvent) (s : PageState)
    (h : resultSlotsExclusive s) :
    resultSlotsExclusive (es.foldl applyEvent s) := by
  induction es generalizing s with
  | nil => exact h
  | cons e es ih =>
      exact ih (applyEvent s e) (applyEvent_preserves_exclusive s e h)

/-- C9: from the initial page state, any sequence of completed scan
interactions leaves at most one of the deep/quick scan result and the
extract-mode URL info non-null; moreover starting a scan clears both slots,
a deep or quick scan success stores the scan result and clears the URL
info, and a successful extract stores the URL info and clears the scan
result. -/
theorem result_slots_mutually_exclusive (es : List PageEvent) :
    resultSlotsExclusive (es.foldl applyEvent initialPageState) ∧
    (∀ s : PageState,
        applyEvent s .startScan = { s with scanResult := none, urlInfo := none }) ∧
    (∀ (s : PageState) (d : ScanResult),
        applyEvent s (.deepScanSuccess d) =
          { s with scanResult := some d, urlInfo := none }) ∧
    (∀ (s : PageState) (d : ScanResult),
        applyEvent s (.quickScanSuccess d) =
          { s with scanResult := some d, urlInfo := none }) ∧
    (∀ (s : PageState) (i : UrlInfo),
        applyEvent s (.extractSuccess true i) =
          { s with urlInfo := some i, scanResult := none }) := by
  refine ⟨foldl_applyEvent_exclusive es initialPageState (Or.inl rfl),
    fun s => rfl, fun s d => rfl, fun s d => rfl, fun s i => rfl⟩

/-! ## Orchestration: validation failure versus probe degradation -/

/-- Modelled from the spec: the outcome of request validation by the URL
Normalizer — either a hostname for a well-formed URL or a validation error
message (backend scanner module absent from the shipped sources). -/
inductive ValidationOutcome
  | ok (hostname : String)
  | invalid (msg : String)
  deriving Repr, DecidableEq

/-- Whether validation rejected the request. -/
def ValidationOutcome.isInvalid : ValidationOutcome → Bool
  | .ok _ => false
  | .invalid _ => true

/-- The sub-results the orchestrator gathered before handing over to result
assembly: each probe slot is optional (a probe that failed, was skipped, or
missed the deadline contributes nothing), findings are a plain list. -/
structure ProbeResults where
  ssl_analysis : Option TlsReport
  security_headers : Option HeaderReport
  dns_records : Option DnsRecordSet
  technology : Option TechnologyProfile
  open_ports : Option OpenPorts
  findings : List Finding
  security_score : Option Int
  deriving Repr, DecidableEq

/-- Modelled from the spec: the Scan Orchestrator result assembly
(backend scanner module absent from the shipped sources).  A validation
failure is the sole path producing success false, an error string and no
data; with a validated request the result always carries success true and
whatever sub-results were gathered, however degraded. -/
def runScan (target : String) (v : ValidationOutcome) (g : ProbeResults)
    (scanTime : String) : ScanResult :=
  match v with
  | .invalid msg =>
      { success := false, target := none, hostname := none, scan_time := none,
        security_score := none, security_grade := none, ssl_analysis := none,
        security_headers := none, dns_records := none, technology := none,
        open_ports := none, findings := none, error := some msg }
  | .ok hostname =>
      { success := true, target := some target, hostname := some hostname,
        scan_time := some scanTime,
        security_score := g.security_score,
        security_grade := g.security_score.map security_grade,
        ssl_analysis := g.ssl_analysis,
        security_headers := g.security_headers,
        dns_records := g.dns_records,
        technology := g.technology,
        open_ports := g.open_ports,
        findings := some g.findings,
        error := none }

/-- C2: a scan result has success false exactly when request validation
failed; in that case and only then the result carries an error string and no
partial scan data, while a validated request — whatever its gathered probe
results, network errors and timeouts included — yields success true and no
error string. -/
theorem success_false_iff_validation_failed (target scanTime : String)
    (v : ValidationOutcome) (g : ProbeResults) :
    ((runScan target v g scanTime).success = false ↔ v.isInvalid = true) ∧
    (∀ msg : String,
        (runScan target (.invalid msg) g scanTime).error = some msg ∧
        (runScan target (.invalid msg) g scanTime).ssl_analysis = none ∧
        (runScan target (.invalid msg) g scanTime).security_headers = none ∧
        (runScan target (.invalid msg) g scanTime).dns_records = none ∧
        (runScan target (.invalid msg) g scanTime).technology = none ∧
        (runScan target (.invalid msg) g scanTime).open_ports = none ∧
        (runScan target (.invalid msg) g scanTime).findings = none ∧
        (runScan target (.invalid msg) g scanTime).security_score = none) ∧
    (∀ hostname : String,
        (runScan target (.ok hostname) g scanTime).success = true ∧
        (runScan target (.ok hostname) g scanTime).error = none) := by
  refine ⟨?_, fun msg => ⟨rfl, rfl, rfl, rfl, rfl, rfl, rfl, rfl⟩,
    fun hostname => ⟨rfl, rfl⟩⟩
  cases v <;> simp [runScan, ValidationOutcome.isInvalid]

/-! ## Scoring -/

/-- Modelled from the spec: the fixed scoring weights of the Scoring
Aggregator — TLS 35, Headers 25, Ports 15, HTTPS-enforcement 15,
Technology 10 percent (backend scanner module absent from the shipped
sources; the weight table is also documented in the project report). -/
def scoringWeights : List ℚ := [35/100, 25/100, 15/100, 15/100, 10/100]

/-- The weighted sum of the five component scores under `scoringWeights`. -/
def weightedTotal (tls hdr prt enf tec : ℚ) : ℚ :=
  ((scoringWeights.zip [tls, hdr, prt, enf, tec]).map fun p => p.1 * p.2).sum

/-- Modelled from the spec: `security_score` is the rounded weighted sum of
the component scores, clamped to the interval from 0 to 100. -/
def security_score (tls hdr prt enf tec : ℚ) : ℤ :=
  max 0 (min 100 (round (weightedTotal tls hdr prt enf tec)))

/-- Modelled from the spec: a numeric score is attached only in quick and
deep mode; the extract-mode result carries none. -/
def scoreForMode (m : ScanMode) (tls hdr prt enf tec : ℚ) : Option ℤ :=
  match m with
  | .extract => none
  | .quick => some (security_score tls hdr prt enf tec)
  | .deep => some (security_score tls hdr prt enf tec)

/-- Modelled from the spec: the letter grade is derived from the numeric
score, so it too is attached only in quick and deep mode; the extract-mode
result carries none. -/
def gradeForMode (m : ScanMode) (tls hdr prt enf tec : ℚ) : Option String :=
  (scoreForMode m tls hdr prt enf tec).map security_grade

/-- Rounding keeps a rational in the interval from 0 to 100 inside it. -/
theorem round_mem_Icc {w : ℚ} (h0 : 0 ≤ w) (h1 : w ≤ 100) :
    0 ≤ round w ∧ round w ≤ 100 := by
  rw [round_eq]
  constructor
  · exact Int.le_floor.mpr (by push_cast; linarith)
  · have hlt : ⌊w + 1 / 2⌋ < 101 :=
      Int.floor_lt.mpr (by push_cast; linarith)
    omega

/-- C6: with every component in the interval from 0 to 100, the security
score is exactly the rounded weighted sum with the fixed weights TLS 35,
Headers 25, Ports 15, HTTPS-enforcement 15 and Technology 10 percent (the
weights sum to one), it is an integer in the closed interval from 0 to 100,
and both the score and the derived letter grade are produced only for quick
and deep scans — an extract-mode result never carries a security score or
grade, and its schema has neither field. -/
theorem score_is_clamped_weighted_round (tls hdr prt enf tec : ℚ)
    (htls0 : 0 ≤ tls) (htls1 : tls ≤ 100)
    (hhdr0 : 0 ≤ hdr) (hhdr1 : hdr ≤ 100)
    (hprt0 : 0 ≤ prt) (hprt1 : prt ≤ 100)
    (henf0 : 0 ≤ enf) (henf1 : enf ≤ 100)
    (htec0 : 0 ≤ tec) (htec1 : tec ≤ 100) :
    scoringWeights.sum = 1 ∧
    weightedTotal tls hdr prt enf tec =
      (35 * tls + 25 * hdr + 15 * prt + 15 * enf + 10 * tec) / 100 ∧
    security_score tls hdr prt enf tec =
      round (weightedTotal tls hdr prt enf tec) ∧
    0 ≤ security_score tls hdr prt enf tec ∧
    security_score tls hdr prt enf tec ≤ 100 ∧
    scoreForMode .quick tls hdr prt enf tec =
      some (security_score tls hdr prt enf tec) ∧
    scoreForMode .deep tls hdr prt enf tec =
      some (security_score tls hdr prt enf tec) ∧
    scoreForMode .extract tls hdr prt enf tec = none ∧
    "security_score" ∈ scanResultFields ∧
    "security_score" ∉ urlInfoFields ∧
    gradeForMode .quick tls hdr prt enf tec =
      some (security_grade (security_score tls hdr prt enf tec)) ∧
    gradeForMode .deep tls hdr prt enf tec =
      some (security_grade (security_score tls hdr prt enf tec)) ∧
    gradeForMode .extract tls hdr prt enf tec = none ∧
    "security_grade" ∈ scanResultFields ∧
    "security_grade" ∉ urlInfoFields := by
  have hwt : weightedTotal tls hdr prt enf tec =
      (35 * tls + 25 * hdr + 15 * prt + 15 * enf + 10 * tec) / 100 := by
    simp [weightedTotal, scoringWeights]
    ring
  have hwt0 : 0 ≤ weightedTotal tls hdr prt enf tec := by
    rw [hwt]; positivity
  have hwt1 : weightedTotal tls hdr prt enf tec ≤ 100 := by
    rw [hwt]; linarith
  obtain ⟨hr0, hr1⟩ := round_mem_Icc hwt0 hwt1
  have hclamp : security_score tls hdr prt enf tec =
      round (weightedTotal tls hdr prt enf tec) := by
    unfold security_score
    omega
  refine ⟨by norm_num [scoringWeights], hwt, hclamp, ?_, ?_, rfl, rfl, rfl,
    by decide, by decide, rfl, rfl, rfl, by decide, by decide⟩
  · rw [hclamp]; exact hr0
  · rw [hclamp]; exact hr1

/-- C6 witness: `score_is_clamped_weighted_round` at fully compliant
components (all five at 100). -/
theorem score_is_clamped_weighted_round_witness :
    (0:ℚ) ≤ 100 ∧ (100:ℚ) ≤ 100 ∧
    0 ≤ security_score 100 100 100 100 100 ∧
    security_score 100 100 100 100 100 ≤ 100 ∧
    scoreForMode .extract 100 100 100 100 100 = none ∧
    gradeForMode .extract 100 100 100 100 100 = none :=
  have h := score_is_clamped_weighted_round 100 100 100 100 100
    (by norm_num) (by norm_num) (by norm_num) (by norm_num) (by norm_num)
    (by norm_num) (by norm_num) (by norm_num) (by norm_num) (by norm_num)
  ⟨by norm_num, by norm_num, h.2.2.2.1, h.2.2.2.2.1, h.2.2.2.2.2.2.2.1,
   h.2.2.2.2.2.2.2.2.2.2.2.2.1⟩

/-! ## DNS record sets -/

/-- Modelled from the spec: the outcome of one DNS query — either a record
list, or a failure (NXDOMAIN or timeout). -/
inductive DnsQueryOutcome
  | found (records : List String)
  | failed
  deriving Repr, DecidableEq

/-- Modelled from the spec: the DNS Resolver turns a failing query into the
empty sequence for that record type instead of aborting (backend scanner
module absent from the shipped sources). -/
def recordsOf : DnsQueryOutcome → List String
  | .found rs => rs
  | .failed => []

/-- Modelled from the spec: the four record types are queried independently
and assembled into the `dns_records` sub-object. -/
def resolveDns (a aaaa mx ns : DnsQueryOutcome) : DnsRecordSet :=
  { a_records := recordsOf a, aaaa_records := recordsOf aaaa,
    mx_records := recordsOf mx, ns_records := recordsOf ns }

/-- Field-name/optionality pairs of the `dns_records` sub-object as declared
by the TypeScript interface: every record array is a required field. -/
def dnsRecordsFieldOptional : List (String × Bool) :=
  [("a_records", false), ("aaaa_records", false),
   ("mx_records", false), ("ns_records", false)]

/-- C7: every per-type DNS record collection is a list of strings that is
empty — never null or absent — when the query for that type found nothing,
each record type is independent of the failures of the others, the
TypeScript interface declares none of the four arrays optional, and taking
the length of any collection is always defined. -/
theorem dns_record_lists_never_null (a aaaa mx ns : DnsQueryOutcome) :
    (∀ rs : List String, recordsOf (.found rs) = rs) ∧
    recordsOf .failed = [] ∧
    (resolveDns .failed aaaa mx ns).a_records = [] ∧
    (resolveDns a .failed mx ns).aaaa_records = [] ∧
    (resolveDns a aaaa .failed ns).mx_records = [] ∧
    (resolveDns a aaaa mx .failed).ns_records = [] ∧
    (resolveDns .failed aaaa mx ns).mx_records = recordsOf mx ∧
    dnsRecordsFieldOptional.all (fun p => !p.2) = true ∧
    (resolveDns a aaaa mx ns).a_records.length = (recordsOf a).length := by
  exact ⟨fun rs => rfl, rfl, rfl, rfl, rfl, rfl, rfl, by decide, rfl⟩

/-! ## Orchestrator timing -/

/-- Modelled from the spec: wall time one probe occupies under its own
timeout; a duration of none stands for a target that never answers, in
which case the probe is cut off at its timeout. -/
def probeElapsed (probeTimeout : Nat) (d : Option Nat) : Nat :=
  match d with
  | none => probeTimeout
  | some t => min t probeTimeout

/-- Modelled from the spec: a probe contributes its sub-result only when it
answers within both its own timeout and the overall deadline. -/
def probeCompleted (overall probeTimeout : Nat) (d : Option Nat) : Bool :=
  match d with
  | none => false
  | some t => t ≤ probeTimeout && t ≤ overall

/-- One scan against a possibly slow target: each probe has a duration
(none when the target never answers) and the sub-result it would deliver. -/
structure TimedProbeOutcomes where
  sslDur : Option Nat
  ssl : TlsReport
  headersDur : Option Nat
  headers : HeaderReport
  dnsDur : Option Nat
  dns : DnsRecordSet
  techDur : Option Nat
  tech : TechnologyProfile
  portsDur : Option Nat
  ports : OpenPorts

/-- Modelled from the spec: on deadline expiry the orchestrator stops
waiting and keeps whatever sub-results completed, marking the rest absent. -/
def gatherWithDeadline (overall probeTimeout : Nat)
    (o : TimedProbeOutcomes) : ProbeResults :=
  { ssl_analysis :=
      if probeCompleted overall probeTimeout o.sslDur then some o.ssl else none,
    security_headers :=
      if probeCompleted overall probeTimeout o.headersDur then some o.headers
      else none,
    dns_records :=
      if probeCompleted overall probeTimeout o.dnsDur then some o.dns else none,
    technology :=
      if probeCompleted overall probeTimeout o.techDur then some o.tech
      else none,
    open_ports :=
      if probeCompleted overall probeTimeout o.portsDur then some o.ports
      else none,
    findings := [],
    security_score := none }

/-- Modelled from the spec: total wall time of one scan — the probes run
concurrently, so the scan lasts as long as the slowest capped probe, and
never longer than the overall deadline. -/
def scanElapsed (overall probeTimeout : Nat) (o : TimedProbeOutcomes) : Nat :=
  min overall
    (([o.sslDur, o.headersDur, o.dnsDur, o.techDur, o.portsDur].map
      (probeElapsed probeTimeout)).foldl max 0)

/-- C8: for every validated request the scan returns within the overall
deadline (hence within the deadline plus any epsilon) no matter how slow or
unresponsive the target is, and a scan cut off by the deadline still yields
a result with success true built from whatever sub-results completed, the
missing ones marked absent. -/
theorem scan_returns_within_deadline (target hostname scanTime : String)
    (overall probeTimeout : Nat) (o : TimedProbeOutcomes) :
    scanElapsed overall probeTimeout o ≤ overall ∧
    (runScan target (.ok hostname) (gatherWithDeadline overall probeTimeout o)
      scanTime).success = true ∧
    (runScan target (.ok hostname) (gatherWithDeadline overall probeTimeout o)
      scanTime).error = none ∧
    probeCompleted overall probeTimeout none = false ∧
    (probeCompleted overall probeTimeout o.sslDur = true →
      (gatherWithDeadline overall probeTimeout o).ssl_analysis = some o.ssl) ∧
    (probeCompleted overall probeTimeout o.sslDur = false →
      (gatherWithDeadline overall probeTimeout o).ssl_analysis = none) := by
  refine ⟨Nat.min_le_left _ _, rfl, rfl, rfl, ?_, ?_⟩ <;>
    · intro h
      simp [gatherWithDeadline, h]

/-- C8 witness: `scan_returns_within_deadline` on a scan whose TLS probe
answers in 5 seconds against a 10 second probe timeout and 30 second
deadline, while the port probe never answers. -/
theorem scan_returns_within_deadline_witness :
    probeCompleted 30 10 (some 5) = true ∧
    (gatherWithDeadline 30 10
      { sslDur := some 5,
        ssl := { enabled := true, valid := true, issuer := none,
                 subject := none, expires := none, days_until_expiry := none,
                 protocol := none },
        headersDur := some 3,
        headers := { present_count := 0, total_headers := 6, score := 0,
                     headers := [] },
        dnsDur := some 2,
        dns := { a_records := [], aaaa_records := [], mx_records := [],
                 ns_records := [] },
        techDur := some 4,
        tech := { server := none, framework := none, cms := none, cdn := none,
                  javascript_libraries := [], analytics := [], detected := [] },
        portsDur := none,
        ports := { open_ports := [], scanned := 0 } }).ssl_analysis =
      some { enabled := true, valid := true, issuer := none,
             subject := none, expires := none, days_until_expiry := none,
             protocol := none } :=
  ⟨by decide,
   (scan_returns_within_deadline "https://example.com" "example.com" "t" 30 10
      { sslDur := some 5,
        ssl := { enabled := true, valid := true, issuer := none,
                 subject := none, expires := none, days_until_expiry := none,
                 protocol := none },
        headersDur := some 3,
        headers := { present_count := 0, total_headers := 6, score := 0,
                     headers := [] },
        dnsDur := some 2,
        dns := { a_records := [], aaaa_records := [], mx_records := [],
                 ns_records := [] },
        techDur := some 4,
        tech := { server := none, framework := none, cms := none, cdn := none,
                  javascript_libraries := [], analytics := [], detected := [] },
        portsDur := none,
        ports := { open_ports := [], scanned := 0 } }).2.2.2.2.1 (by decide)⟩

end FortifAI
